import Mathlib

/-!
Verification of the activity-signup service in `src/app.py`.

The service keeps a process-local registry mapping activity names to
activity records and exposes two registry operations:

* `get_activities` (GET /activities) returns the registry unchanged;
* `signup_for_activity` (POST /activities/{activity_name}/signup) checks,
  in order, that the activity exists, that the email is not already a
  participant, and that the activity is not full, then appends the email.

Python dicts preserve insertion order and updating an existing key keeps
its position, so the registry is embedded as an association list
`List (String × Activity)` with order-preserving lookup and update.
Raising `HTTPException` is embedded as returning `Except HTTPException`.
-/

/-- One activity record: the value part of an `activities[name]` entry. -/
structure Activity where
  description : String
  schedule : String
  max_participants : Nat
  participants : List String
deriving DecidableEq

/-- The payload of a raised `fastapi.HTTPException`. -/
structure HTTPException where
  status_code : Nat
  detail : String
deriving DecidableEq

deriving instance DecidableEq for Except

/-- The in-memory registry: a Python dict from activity name to record. -/
abbrev Registry := List (String × Activity)

/-- Embeds `name in activities` / `activities[name]`: first entry whose key
matches, `none` when absent. -/
def lookupA : Registry → String → Option Activity
  | [], _ => none
  | (k, v) :: rest, name => if k = name then some v else lookupA rest name

/-- In-place update of the entry for `name` (a no-op when absent), as Python
mutation of `activities[name]` keeps the dict's key order. -/
def updateA : Registry → String → Activity → Registry
  | [], _, _ => []
  | (k, v) :: rest, name, a =>
      if k = name then (k, a) :: rest else (k, v) :: updateA rest name a

/-- The seed registry hardcoded in `app.py` (nine activities). -/
def activities : Registry :=
  [ ("Chess Club",
      { description := "Learn strategies and compete in chess tournaments",
        schedule := "Fridays, 3:30 PM - 5:00 PM",
        max_participants := 12,
        participants := ["michael@mergington.edu", "daniel@mergington.edu"] }),
    ("Programming Class",
      { description := "Learn programming fundamentals and build software projects",
        schedule := "Tuesdays and Thursdays, 3:30 PM - 4:30 PM",
        max_participants := 20,
        participants := ["emma@mergington.edu", "sophia@mergington.edu"] }),
    ("Gym Class",
      { description := "Physical education and sports activities",
        schedule := "Mondays, Wednesdays, Fridays, 2:00 PM - 3:00 PM",
        max_participants := 30,
        participants := ["john@mergington.edu", "olivia@mergington.edu"] }),
    ("Soccer Practice",
      { description := "Team drills, conditioning, and scrimmages",
        schedule := "Tuesdays and Thursdays, 4:00 PM - 5:30 PM",
        max_participants := 22,
        participants := [] }),
    ("Track & Field",
      { description := "Sprint, distance, and field event training",
        schedule := "Mondays and Wednesdays, 3:30 PM - 5:00 PM",
        max_participants := 28,
        participants := [] }),
    ("Drama Club",
      { description := "Acting workshops and preparing stage performances",
        schedule := "Wednesdays, 3:30 PM - 5:00 PM",
        max_participants := 18,
        participants := [] }),
    ("Art Studio",
      { description := "Drawing, painting, and mixed-media projects",
        schedule := "Mondays, 3:30 PM - 5:00 PM",
        max_participants := 16,
        participants := [] }),
    ("Debate Team",
      { description := "Practice structured debates and public speaking",
        schedule := "Thursdays, 3:30 PM - 5:00 PM",
        max_participants := 14,
        participants := [] }),
    ("Math Olympiad",
      { description := "Problem-solving sessions and competition prep",
        schedule := "Tuesdays, 3:30 PM - 4:45 PM",
        max_participants := 20,
        participants := [] }) ]

/-- `get_activities` (GET /activities): returns the registry as-is. -/
def get_activities (r : Registry) : Registry := r

/-- `signup_for_activity` (POST /activities/{activity_name}/signup).
Guards in source order: existence (404 "Activity not found"), duplicate
(400 "Student is already signed up"), capacity
(400 "Activity is full"); on success appends `email` and returns the
message built by the f-string `"Signed up {email} for {activity_name}"`. -/
def signup_for_activity (r : Registry) (activity_name email : String) :
    Except HTTPException (String × Registry) :=
  match lookupA r activity_name with
  | none => .error ⟨404, "Activity not found"⟩
  | some activity =>
      if email ∈ activity.participants then
        .error ⟨400, "Student is already signed up"⟩
      else if activity.participants.length ≥ activity.max_participants then
        .error ⟨400, "Activity is full"⟩
      else
        .ok ("Signed up " ++ email ++ " for " ++ activity_name,
          updateA r activity_name
            { activity with participants := activity.participants ++ [email] })

/-- One HTTP request against the registry state: the state after a signup
call, whether it succeeded (new registry) or raised (unchanged registry). -/
def runSignup (r : Registry) (call : String × String) : Registry :=
  match signup_for_activity r call.1 call.2 with
  | .ok (_, r') => r'
  | .error _ => r

/-- The registry state after a sequence of signup calls. -/
def runSignups (r : Registry) (calls : List (String × String)) : Registry :=
  calls.foldl runSignup r

/-- Capacity invariant: every activity's roster is within its maximum. -/
abbrev CapacityInv (r : Registry) : Prop :=
  ∀ p ∈ r, p.2.participants.length ≤ p.2.max_participants

/-- Duplicate-freedom invariant: no email twice in one activity's roster. -/
abbrev NodupInv (r : Registry) : Prop :=
  ∀ p ∈ r, p.2.participants.Nodup

/-- The visible outcome of a signup call: the message or the exception,
with the registry stripped off. -/
def resultOf : Except HTTPException (String × Registry) → Except HTTPException String
  | .ok (msg, _) => .ok msg
  | .error ex => .error ex

/-- The detail string of a failed signup call, `none` on success. -/
def errorDetail : Except HTTPException (String × Registry) → Option String
  | .ok _ => none
  | .error ex => some ex.detail

theorem lookupA_mem {r : Registry} {n : String} {a : Activity}
    (h : lookupA r n = some a) : (n, a) ∈ r := by
  induction r with
  | nil => simp [lookupA] at h
  | cons q rest ih =>
      obtain ⟨k, v⟩ := q
      by_cases hk : k = n
      · subst hk
        simp [lookupA] at h
        subst h
        exact List.mem_cons_self _ _
      · simp [lookupA, hk] at h
        exact List.mem_cons_of_mem _ (ih h)

theorem mem_updateA {r : Registry} {n : String} {a : Activity}
    {p : String × Activity} (h : p ∈ updateA r n a) : p ∈ r ∨ p.2 = a := by
  induction r with
  | nil => simp [updateA] at h
  | cons q rest ih =>
      obtain ⟨k, v⟩ := q
      by_cases hk : k = n
      · simp [updateA, hk] at h
        rcases h with h | h
        · right; rw [h]
        · left; exact List.mem_cons_of_mem _ h
      · simp [updateA, hk] at h
        rcases h with h | h
        · left; rw [h]; exact List.mem_cons_self _ _
        · rcases ih h with h' | h'
          · left; exact List.mem_cons_of_mem _ h'
          · right; exact h'

theorem updateA_keys (r : Registry) (n : String) (a : Activity) :
    (updateA r n a).map Prod.fst = r.map Prod.fst := by
  induction r with
  | nil => rfl
  | cons q rest ih =>
      obtain ⟨k, v⟩ := q
      by_cases hk : k = n
      · simp [updateA, hk]
      · simp [updateA, hk, ih]

theorem lookupA_updateA_self {r : Registry} {n : String} {v : Activity}
    (a : Activity) (h : lookupA r n = some v) :
    lookupA (updateA r n a) n = some a := by
  induction r with
  | nil => simp [lookupA] at h
  | cons q rest ih =>
      obtain ⟨k, w⟩ := q
      by_cases hk : k = n
      · simp [updateA, lookupA, hk]
      · simp [updateA, lookupA, hk] at h ⊢
        exact ih h

theorem lookupA_updateA_ne (r : Registry) (n m : String) (a : Activity)
    (hmn : m ≠ n) : lookupA (updateA r n a) m = lookupA r m := by
  induction r with
  | nil => rfl
  | cons q rest ih =>
      obtain ⟨k, v⟩ := q
      by_cases hk : k = n
      · subst hk
        have hkm : ¬ k = m := fun h => hmn (h.symm)
        simp [updateA, lookupA, hkm]
      · by_cases hkm : k = m
        · subst hkm
          simp [updateA, lookupA, hk]
        · simp [updateA, lookupA, hk, hkm, ih]

theorem signup_eq_of_lookup_none {r : Registry} {n : String} (e : String)
    (h : lookupA r n = none) :
    signup_for_activity r n e = .error ⟨404, "Activity not found"⟩ := by
  unfold signup_for_activity
  rw [h]

theorem signup_eq_of_lookup {r : Registry} {n : String} {a : Activity}
    (e : String) (h : lookupA r n = some a) :
    signup_for_activity r n e =
      (if e ∈ a.participants then
        .error ⟨400, "Student is already signed up"⟩
      else if a.participants.length ≥ a.max_participants then
        .error ⟨400, "Activity is full"⟩
      else
        .ok ("Signed up " ++ e ++ " for " ++ n,
          updateA r n { a with participants := a.participants ++ [e] })) := by
  unfold signup_for_activity
  rw [h]

theorem runSignup_capacity {r : Registry} (hr : CapacityInv r)
    (c : String × String) : CapacityInv (runSignup r c) := by
  unfold runSignup
  cases hl : lookupA r c.1 with
  | none =>
      rw [signup_eq_of_lookup_none c.2 hl]
      exact hr
  | some a =>
      rw [signup_eq_of_lookup c.2 hl]
      by_cases hdup : c.2 ∈ a.participants
      · rw [if_pos hdup]; exact hr
      · rw [if_neg hdup]
        by_cases hfull : a.participants.length ≥ a.max_participants
        · rw [if_pos hfull]; exact hr
        · rw [if_neg hfull]
          intro p hp
          rcases mem_updateA hp with h' | h'
          · exact hr p h'
          · rw [h']
            simp only [List.length_append, List.length_singleton]
            omega

theorem runSignup_nodup {r : Registry} (hr : NodupInv r)
    (c : String × String) : NodupInv (runSignup r c) := by
  unfold runSignup
  cases hl : lookupA r c.1 with
  | none =>
      rw [signup_eq_of_lookup_none c.2 hl]
      exact hr
  | some a =>
      rw [signup_eq_of_lookup c.2 hl]
      by_cases hdup : c.2 ∈ a.participants
      · rw [if_pos hdup]; exact hr
      · rw [if_neg hdup]
        by_cases hfull : a.participants.length ≥ a.max_participants
        · rw [if_pos hfull]; exact hr
        · rw [if_neg hfull]
          intro p hp
          rcases mem_updateA hp with h' | h'
          · exact hr p h'
          · rw [h']
            have hnd : a.participants.Nodup := hr _ (lookupA_mem hl)
            simp [List.nodup_append, hnd, hdup]

theorem runSignups_capacity {r : Registry} (hr : CapacityInv r)
    (calls : List (String × String)) : CapacityInv (runSignups r calls) := by
  induction calls generalizing r with
  | nil => exact hr
  | cons c cs ih => exact ih (runSignup_capacity hr c)

theorem runSignups_nodup {r : Registry} (hr : NodupInv r)
    (calls : List (String × String)) : NodupInv (runSignups r calls) := by
  induction calls generalizing r with
  | nil => exact hr
  | cons c cs ih => exact ih (runSignup_nodup hr c)


theorem runSignup_of_error (r : Registry) (c : String × String)
    (ex : HTTPException) (h : signup_for_activity r c.1 c.2 = .error ex) :
    runSignup r c = r := by
  unfold runSignup
  rw [h]

theorem runSignup_of_ok (r : Registry) (c : String × String) (msg : String)
    (r' : Registry) (h : signup_for_activity r c.1 c.2 = .ok (msg, r')) :
    runSignup r c = r' := by
  unfold runSignup
  rw [h]

theorem runSignup_keys (r : Registry) (c : String × String) :
    (runSignup r c).map Prod.fst = r.map Prod.fst := by
  unfold runSignup
  cases hl : lookupA r c.1 with
  | none => rw [signup_eq_of_lookup_none c.2 hl]
  | some a =>
      rw [signup_eq_of_lookup c.2 hl]
      by_cases hdup : c.2 ∈ a.participants
      · rw [if_pos hdup]
      · rw [if_neg hdup]
        by_cases hfull : a.participants.length ≥ a.max_participants
        · rw [if_pos hfull]
        · rw [if_neg hfull]
          exact updateA_keys r c.1 _

theorem runSignups_keys (r : Registry) (calls : List (String × String)) :
    (runSignups r calls).map Prod.fst = r.map Prod.fst := by
  induction calls generalizing r with
  | nil => rfl
  | cons c cs ih => exact (ih (runSignup r c)).trans (runSignup_keys r c)

/-- C1: for every activity in the registry, the participant count is at most
`max_participants`, both in the seed state and after every sequence of
signup calls (signup refuses to append once the count reaches the max). -/
theorem activities_capacity_invariant :
    CapacityInv activities ∧
    ∀ calls : List (String × String), CapacityInv (runSignups activities calls) :=
  ⟨by decide, fun calls => runSignups_capacity (by decide) calls⟩

/-- C2: the three guards run in source order (existence, then duplicate,
then capacity) and short-circuit; in particular, when the email is already
a participant and the activity is also at capacity, signup fails with the
duplicate-signup error, not the capacity error. -/
theorem signup_guard_order (r : Registry) (n e : String) :
    (lookupA r n = none →
      signup_for_activity r n e = .error ⟨404, "Activity not found"⟩) ∧
    (∀ a, lookupA r n = some a → e ∈ a.participants →
      a.participants.length ≥ a.max_participants →
      signup_for_activity r n e = .error ⟨400, "Student is already signed up"⟩ ∧
      signup_for_activity r n e ≠ .error ⟨400, "Activity is full"⟩) := by
  constructor
  · intro hl
    exact signup_eq_of_lookup_none e hl
  · intro a hl hdup hfull
    have heq : signup_for_activity r n e =
        .error ⟨400, "Student is already signed up"⟩ := by
      rw [signup_eq_of_lookup e hl, if_pos hdup]
    refine ⟨heq, ?_⟩
    rw [heq]
    decide

/-- Witness for C2: a one-activity registry whose single slot is taken by
the very email signing up again — duplicate and full at once — gets the
duplicate-signup error. -/
theorem signup_guard_order_witness :
    signup_for_activity
        [("Chess Club",
          { description := "d", schedule := "s",
            max_participants := 1, participants := ["a@m"] })]
        "Chess Club" "a@m"
      = .error ⟨400, "Student is already signed up"⟩ ∧
    signup_for_activity
        [("Chess Club",
          { description := "d", schedule := "s",
            max_participants := 1, participants := ["a@m"] })]
        "Chess Club" "a@m"
      ≠ .error ⟨400, "Activity is full"⟩ :=
  (signup_guard_order
      [("Chess Club",
        { description := "d", schedule := "s",
          max_participants := 1, participants := ["a@m"] })]
      "Chess Club" "a@m").2
    { description := "d", schedule := "s",
      max_participants := 1, participants := ["a@m"] }
    (by decide) (by decide) (by decide)

/-- C3: when the activity exists, the email is not yet enrolled and there is
free capacity, signup appends the email at the end of that roster and
returns the message "Signed up <email> for <activity_name>". -/
theorem signup_success_appends (r : Registry) (n e : String) (a : Activity)
    (h1 : lookupA r n = some a) (h2 : e ∉ a.participants)
    (h3 : a.participants.length < a.max_participants) :
    signup_for_activity r n e =
      .ok ("Signed up " ++ e ++ " for " ++ n,
        updateA r n { a with participants := a.participants ++ [e] }) := by
  rw [signup_eq_of_lookup e h1, if_neg h2, if_neg (by omega)]

/-- Witness for C3: the seed scenario — Soccer Practice starts empty, ana
signs up, the confirmation message is returned and the roster becomes
exactly one participant. -/
theorem signup_success_appends_witness :
    signup_for_activity activities "Soccer Practice" "ana@mergington.edu" =
      .ok ("Signed up ana@mergington.edu for Soccer Practice",
        updateA activities "Soccer Practice"
          { description := "Team drills, conditioning, and scrimmages",
            schedule := "Tuesdays and Thursdays, 4:00 PM - 5:30 PM",
            max_participants := 22,
            participants := ["ana@mergington.edu"] }) ∧
    (lookupA (runSignup activities ("Soccer Practice", "ana@mergington.edu"))
        "Soccer Practice").map Activity.participants
      = some ["ana@mergington.edu"] :=
  ⟨(signup_success_appends activities "Soccer Practice" "ana@mergington.edu"
      { description := "Team drills, conditioning, and scrimmages",
        schedule := "Tuesdays and Thursdays, 4:00 PM - 5:30 PM",
        max_participants := 22, participants := [] }
      (by decide) (by decide) (by decide)).trans (by decide),
   by decide⟩

/-- C4: every failing signup call leaves the registry exactly as it was. -/
theorem signup_failure_atomic (r : Registry) (n e : String)
    (ex : HTTPException) (h : signup_for_activity r n e = .error ex) :
    runSignup r (n, e) = r :=
  runSignup_of_error r (n, e) ex h

/-- Witness for C4: signing up for the unseeded "Robotics Club" fails and
leaves the seed registry unchanged. -/
theorem signup_failure_atomic_witness :
    runSignup activities ("Robotics Club", "x@mergington.edu") = activities :=
  signup_failure_atomic activities "Robotics Club" "x@mergington.edu"
    ⟨404, "Activity not found"⟩ (by decide)

/-- C5: no email occurs twice in any activity's participant list, in the
seed state and after every sequence of signup calls. -/
theorem activities_nodup_invariant :
    NodupInv activities ∧
    ∀ calls : List (String × String), NodupInv (runSignups activities calls) :=
  ⟨by decide, fun calls => runSignups_nodup (by decide) calls⟩

/-- Counterexample for C6: at a full activity the code raises detail
"Activity is full" (capital A), not the claimed "activity is full". -/
theorem signup_full_detail_counterexample :
    errorDetail (signup_for_activity
        [("Art Studio",
          { description := "d", schedule := "s",
            max_participants := 1, participants := ["a@m"] })]
        "Art Studio" "b@m")
      = some "Activity is full" ∧
    ¬ errorDetail (signup_for_activity
        [("Art Studio",
          { description := "d", schedule := "s",
            max_participants := 1, participants := ["a@m"] })]
        "Art Studio" "b@m")
      = some "activity is full" := by
  decide

/-- C6 (amended): an unknown activity yields 404 "Activity not found", a
duplicate email yields 400 "Student is already signed up", and a full
activity yields 400 "Activity is full". -/
theorem signup_error_status_detail (r : Registry) (n e : String) :
    (lookupA r n = none →
      signup_for_activity r n e = .error ⟨404, "Activity not found"⟩) ∧
    (∀ a, lookupA r n = some a → e ∈ a.participants →
      signup_for_activity r n e = .error ⟨400, "Student is already signed up"⟩) ∧
    (∀ a, lookupA r n = some a → e ∉ a.participants →
      a.participants.length ≥ a.max_participants →
      signup_for_activity r n e = .error ⟨400, "Activity is full"⟩) := by
  refine ⟨fun hl => signup_eq_of_lookup_none e hl, ?_, ?_⟩
  · intro a hl hdup
    rw [signup_eq_of_lookup e hl, if_pos hdup]
  · intro a hl hdup hfull
    rw [signup_eq_of_lookup e hl, if_neg hdup, if_pos hfull]

/-- Witness for C6: the three error cases at concrete states — unseeded
"Robotics Club", seed participant michael in "Chess Club", and a filled
one-slot activity. -/
theorem signup_error_status_detail_witness :
    signup_for_activity activities "Robotics Club" "x@mergington.edu"
      = .error ⟨404, "Activity not found"⟩ ∧
    signup_for_activity activities "Chess Club" "michael@mergington.edu"
      = .error ⟨400, "Student is already signed up"⟩ ∧
    signup_for_activity
        [("Art Studio",
          { description := "d", schedule := "s",
            max_participants := 1, participants := ["a@m"] })]
        "Art Studio" "b@m"
      = .error ⟨400, "Activity is full"⟩ :=
  ⟨(signup_error_status_detail activities "Robotics Club"
        "x@mergington.edu").1 (by decide),
   (signup_error_status_detail activities "Chess Club"
        "michael@mergington.edu").2.1
      { description := "Learn strategies and compete in chess tournaments",
        schedule := "Fridays, 3:30 PM - 5:00 PM",
        max_participants := 12,
        participants := ["michael@mergington.edu", "daniel@mergington.edu"] }
      (by decide) (by decide),
   (signup_error_status_detail
        [("Art Studio",
          { description := "d", schedule := "s",
            max_participants := 1, participants := ["a@m"] })]
        "Art Studio" "b@m").2.2
      { description := "d", schedule := "s",
        max_participants := 1, participants := ["a@m"] }
      (by decide) (by decide) (by decide)⟩

/-- C7: a successful signup changes only the named activity's roster —
every other entry and the named activity's other fields stay the same —
and no sequence of calls ever adds or removes an activity. -/
theorem signup_frame_effect :
    (∀ r : Registry, ∀ n e msg : String, ∀ r' : Registry,
      signup_for_activity r n e = .ok (msg, r') →
      (∀ m, m ≠ n → lookupA r' m = lookupA r m) ∧
      (∃ a, lookupA r n = some a ∧
        lookupA r' n = some { a with participants := a.participants ++ [e] }) ∧
      r'.map Prod.fst = r.map Prod.fst) ∧
    (∀ r : Registry, ∀ calls : List (String × String),
      (runSignups r calls).map Prod.fst = r.map Prod.fst) := by
  constructor
  · intro r n e msg r' h
    cases hl : lookupA r n with
    | none =>
        rw [signup_eq_of_lookup_none e hl] at h
        exact Except.noConfusion h
    | some a =>
        rw [signup_eq_of_lookup e hl] at h
        by_cases hdup : e ∈ a.participants
        · rw [if_pos hdup] at h
          exact Except.noConfusion h
        · rw [if_neg hdup] at h
          by_cases hfull : a.participants.length ≥ a.max_participants
          · rw [if_pos hfull] at h
            exact Except.noConfusion h
          · rw [if_neg hfull] at h
            simp only [Except.ok.injEq, Prod.mk.injEq] at h
            obtain ⟨hmsg, hreg⟩ := h
            subst hreg
            refine ⟨fun m hmn => lookupA_updateA_ne r n m _ hmn,
              ⟨a, rfl, lookupA_updateA_self _ hl⟩, updateA_keys r n _⟩
  · intro r calls
    exact runSignups_keys r calls

/-- Witness for C7: after ana joins Soccer Practice the Chess Club entry is
untouched, and a concrete call sequence leaves the key set unchanged. -/
theorem signup_frame_effect_witness :
    lookupA (updateA activities "Soccer Practice"
        { description := "Team drills, conditioning, and scrimmages",
          schedule := "Tuesdays and Thursdays, 4:00 PM - 5:30 PM",
          max_participants := 22,
          participants := ["ana@mergington.edu"] }) "Chess Club"
      = lookupA activities "Chess Club" ∧
    (runSignups activities
        [("Soccer Practice", "ana@mergington.edu")]).map Prod.fst
      = activities.map Prod.fst :=
  ⟨(signup_frame_effect.1 activities "Soccer Practice" "ana@mergington.edu"
      "Signed up ana@mergington.edu for Soccer Practice"
      (updateA activities "Soccer Practice"
        { description := "Team drills, conditioning, and scrimmages",
          schedule := "Tuesdays and Thursdays, 4:00 PM - 5:30 PM",
          max_participants := 22,
          participants := ["ana@mergington.edu"] })
      (by decide)).1 "Chess Club" (by decide),
   signup_frame_effect.2 activities
     [("Soccer Practice", "ana@mergington.edu")]⟩

/-- C8: list_activities returns the registry of all activities with their
current participants and has no side effect on it. -/
theorem get_activities_read_only (r : Registry) : get_activities r = r := rfl

/-- C9: the outcome and the effect on the targeted entry of a signup call
depend only on the registry's entry for that activity name: two states
agreeing on that entry get the same result and the same updated entry, so
enrollment in other activities never affects a signup. -/
theorem signup_depends_only_on_entry (r1 r2 : Registry) (n e : String)
    (h : lookupA r1 n = lookupA r2 n) :
    resultOf (signup_for_activity r1 n e)
      = resultOf (signup_for_activity r2 n e) ∧
    lookupA (runSignup r1 (n, e)) n = lookupA (runSignup r2 (n, e)) n := by
  cases hl : lookupA r2 n with
  | none =>
      have hl1 : lookupA r1 n = none := by rw [h, hl]
      have e1 := signup_eq_of_lookup_none (r := r1) (n := n) e hl1
      have e2 := signup_eq_of_lookup_none (r := r2) (n := n) e hl
      rw [e1, e2, runSignup_of_error r1 (n, e) _ e1,
        runSignup_of_error r2 (n, e) _ e2]
      exact ⟨rfl, by rw [hl1, hl]⟩
  | some a =>
      have hl1 : lookupA r1 n = some a := by rw [h, hl]
      by_cases hdup : e ∈ a.participants
      · have e1 : signup_for_activity r1 n e =
            .error ⟨400, "Student is already signed up"⟩ := by
          rw [signup_eq_of_lookup e hl1, if_pos hdup]
        have e2 : signup_for_activity r2 n e =
            .error ⟨400, "Student is already signed up"⟩ := by
          rw [signup_eq_of_lookup e hl, if_pos hdup]
        rw [e1, e2, runSignup_of_error r1 (n, e) _ e1,
          runSignup_of_error r2 (n, e) _ e2]
        exact ⟨rfl, by rw [hl1, hl]⟩
      · by_cases hfull : a.participants.length ≥ a.max_participants
        · have e1 : signup_for_activity r1 n e =
              .error ⟨400, "Activity is full"⟩ := by
            rw [signup_eq_of_lookup e hl1, if_neg hdup, if_pos hfull]
          have e2 : signup_for_activity r2 n e =
              .error ⟨400, "Activity is full"⟩ := by
            rw [signup_eq_of_lookup e hl, if_neg hdup, if_pos hfull]
          rw [e1, e2, runSignup_of_error r1 (n, e) _ e1,
            runSignup_of_error r2 (n, e) _ e2]
          exact ⟨rfl, by rw [hl1, hl]⟩
        · have e1 : signup_for_activity r1 n e =
              .ok ("Signed up " ++ e ++ " for " ++ n,
                updateA r1 n
                  { a with participants := a.participants ++ [e] }) := by
            rw [signup_eq_of_lookup e hl1, if_neg hdup, if_neg hfull]
          have e2 : signup_for_activity r2 n e =
              .ok ("Signed up " ++ e ++ " for " ++ n,
                updateA r2 n
                  { a with participants := a.participants ++ [e] }) := by
            rw [signup_eq_of_lookup e hl, if_neg hdup, if_neg hfull]
          rw [e1, e2, runSignup_of_ok r1 (n, e) _ _ e1,
            runSignup_of_ok r2 (n, e) _ _ e2]
          refine ⟨rfl, ?_⟩
          rw [lookupA_updateA_self _ hl1, lookupA_updateA_self _ hl]

/-- Witness for C9: michael, already enrolled in Chess Club, gets the same
successful outcome signing up for Soccer Practice as in a registry holding
only the Soccer Practice entry — cross-activity enrollment is ignored. -/
theorem signup_depends_only_on_entry_witness :
    resultOf (signup_for_activity activities "Soccer Practice"
        "michael@mergington.edu")
      = resultOf (signup_for_activity
          [("Soccer Practice",
            { description := "Team drills, conditioning, and scrimmages",
              schedule := "Tuesdays and Thursdays, 4:00 PM - 5:30 PM",
              max_participants := 22, participants := [] })]
          "Soccer Practice" "michael@mergington.edu") ∧
    resultOf (signup_for_activity activities "Soccer Practice"
        "michael@mergington.edu")
      = .ok "Signed up michael@mergington.edu for Soccer Practice" :=
  ⟨(signup_depends_only_on_entry activities
      [("Soccer Practice",
        { description := "Team drills, conditioning, and scrimmages",
          schedule := "Tuesdays and Thursdays, 4:00 PM - 5:30 PM",
          max_participants := 22, participants := [] })]
      "Soccer Practice" "michael@mergington.edu" (by decide)).1,
   by decide⟩

/-- C10: signup never inspects the email's content: any string not already
on the roster of an existing activity with free capacity — even the empty
or non-email-shaped string — is accepted and appended verbatim. -/
theorem signup_accepts_any_email_string (r : Registry) (n e : String)
    (a : Activity) (h1 : lookupA r n = some a) (h2 : e ∉ a.participants)
    (h3 : a.participants.length < a.max_participants) :
    resultOf (signup_for_activity r n e)
      = .ok ("Signed up " ++ e ++ " for " ++ n) ∧
    lookupA (runSignup r (n, e)) n =
      some { a with participants := a.participants ++ [e] } := by
  have e1 : signup_for_activity r n e =
      .ok ("Signed up " ++ e ++ " for " ++ n,
        updateA r n { a with participants := a.participants ++ [e] }) := by
    rw [signup_eq_of_lookup e h1, if_neg h2, if_neg (by omega)]
  rw [e1, runSignup_of_ok r (n, e) _ _ e1]
  exact ⟨rfl, lookupA_updateA_self _ h1⟩

/-- Witness for C10: the empty string signs up for Soccer Practice and is
appended verbatim. -/
theorem signup_accepts_any_email_string_witness :
    resultOf (signup_for_activity activities "Soccer Practice" "")
      = .ok "Signed up  for Soccer Practice" ∧
    lookupA (runSignup activities ("Soccer Practice", "")) "Soccer Practice"
      = some { description := "Team drills, conditioning, and scrimmages",
               schedule := "Tuesdays and Thursdays, 4:00 PM - 5:30 PM",
               max_participants := 22, participants := [""] } :=
  ⟨((signup_accepts_any_email_string activities "Soccer Practice" ""
      { description := "Team drills, conditioning, and scrimmages",
        schedule := "Tuesdays and Thursdays, 4:00 PM - 5:30 PM",
        max_participants := 22, participants := [] }
      (by decide) (by decide) (by decide)).1).trans (by decide),
   ((signup_accepts_any_email_string activities "Soccer Practice" ""
      { description := "Team drills, conditioning, and scrimmages",
        schedule := "Tuesdays and Thursdays, 4:00 PM - 5:30 PM",
        max_participants := 22, participants := [] }
      (by decide) (by decide) (by decide)).2).trans (by decide)⟩
